import Mathlib

/-!
Verification development for the FIPS provider negotiation layer
(providers/fips/fipsprov.c): a shallow embedding of the dispatch-table
exchange, the context lifecycle with its known-answer self-check gate,
the parameter protocol and the algorithm-registry query, together with
theorems about the externally observable behaviour of
OSSL_provider_init, fips_intern_provider_init, fips_get_params and
fips_query.

Function pointers are modelled as opaque numeric handles; the host core,
the allocator and the EVP digest machinery are external collaborators and
enter the model as explicit oracle inputs.
-/

set_option autoImplicit false

/-! ## Capability ids and other constants shared with the host

The numeric values of the capability-id enumeration live in headers that
are not part of these sources; only distinctness and the zero terminator
matter here. -/

/-- Modelled from the spec: capability id of the core get-param-types entry
(OSSL_FUNC_CORE_GET_PARAM_TYPES). -/
def OSSL_FUNC_CORE_GET_PARAM_TYPES : Nat := 1

/-- Modelled from the spec: capability id OSSL_FUNC_CORE_GET_PARAMS. -/
def OSSL_FUNC_CORE_GET_PARAMS : Nat := 2

/-- Modelled from the spec: capability id OSSL_FUNC_CORE_PUT_ERROR. -/
def OSSL_FUNC_CORE_PUT_ERROR : Nat := 3

/-- Modelled from the spec: capability id OSSL_FUNC_CORE_ADD_ERROR_VDATA. -/
def OSSL_FUNC_CORE_ADD_ERROR_VDATA : Nat := 4

/-- Modelled from the spec: capability id OSSL_FUNC_CORE_GET_CRYPTO_MALLOC. -/
def OSSL_FUNC_CORE_GET_CRYPTO_MALLOC : Nat := 5

/-- Modelled from the spec: capability id OSSL_FUNC_CORE_GET_CRYPTO_ZALLOC. -/
def OSSL_FUNC_CORE_GET_CRYPTO_ZALLOC : Nat := 6

/-- Modelled from the spec: capability id OSSL_FUNC_CORE_GET_CRYPTO_MEMDUP. -/
def OSSL_FUNC_CORE_GET_CRYPTO_MEMDUP : Nat := 7

/-- Modelled from the spec: capability id OSSL_FUNC_CORE_GET_CRYPTO_STRDUP. -/
def OSSL_FUNC_CORE_GET_CRYPTO_STRDUP : Nat := 8

/-- Modelled from the spec: capability id OSSL_FUNC_CORE_GET_CRYPTO_STRNDUP. -/
def OSSL_FUNC_CORE_GET_CRYPTO_STRNDUP : Nat := 9

/-- Modelled from the spec: capability id OSSL_FUNC_CORE_GET_CRYPTO_FREE. -/
def OSSL_FUNC_CORE_GET_CRYPTO_FREE : Nat := 10

/-- Modelled from the spec: capability id OSSL_FUNC_CORE_GET_CRYPTO_CLEAR_FREE. -/
def OSSL_FUNC_CORE_GET_CRYPTO_CLEAR_FREE : Nat := 11

/-- Modelled from the spec: capability id OSSL_FUNC_CORE_GET_CRYPTO_REALLOC. -/
def OSSL_FUNC_CORE_GET_CRYPTO_REALLOC : Nat := 12

/-- Modelled from the spec: capability id OSSL_FUNC_CORE_GET_CRYPTO_CLEAR_REALLOC. -/
def OSSL_FUNC_CORE_GET_CRYPTO_CLEAR_REALLOC : Nat := 13

/-- Modelled from the spec: capability id OSSL_FUNC_CORE_GET_CRYPTO_SECURE_MALLOC. -/
def OSSL_FUNC_CORE_GET_CRYPTO_SECURE_MALLOC : Nat := 14

/-- Modelled from the spec: capability id OSSL_FUNC_CORE_GET_CRYPTO_SECURE_ZALLOC. -/
def OSSL_FUNC_CORE_GET_CRYPTO_SECURE_ZALLOC : Nat := 15

/-- Modelled from the spec: capability id OSSL_FUNC_CORE_GET_CRYPTO_SECURE_FREE. -/
def OSSL_FUNC_CORE_GET_CRYPTO_SECURE_FREE : Nat := 16

/-- Modelled from the spec: capability id OSSL_FUNC_CORE_GET_CRYPTO_SECURE_CLEAR_FREE. -/
def OSSL_FUNC_CORE_GET_CRYPTO_SECURE_CLEAR_FREE : Nat := 17

/-- Modelled from the spec: capability id of the secure-malloc-status query
(in the sources OSSL_FUNC_CORE_GET_CRYPTO_SECURE_MALLOC_IN...ED; spelled
INITED here). -/
def OSSL_FUNC_CORE_GET_CRYPTO_SECURE_MALLOC_INITED : Nat := 18

/-- Modelled from the spec: provider-side capability id
OSSL_FUNC_PROVIDER_TEARDOWN. -/
def OSSL_FUNC_PROVIDER_TEARDOWN : Nat := 1024

/-- Modelled from the spec: provider-side capability id
OSSL_FUNC_PROVIDER_GET_PARAM_TYPES. -/
def OSSL_FUNC_PROVIDER_GET_PARAM_TYPES : Nat := 1025

/-- Modelled from the spec: provider-side capability id
OSSL_FUNC_PROVIDER_GET_PARAMS. -/
def OSSL_FUNC_PROVIDER_GET_PARAMS : Nat := 1026

/-- Modelled from the spec: provider-side capability id
OSSL_FUNC_PROVIDER_QUERY_OPERATION. -/
def OSSL_FUNC_PROVIDER_QUERY_OPERATION : Nat := 1027

/-- Modelled from the spec: operation-category id OSSL_OP_DIGEST. -/
def OSSL_OP_DIGEST : Nat := 1

/-- Modelled from the spec: the OSSL_PARAM_UTF8_PTR semantic type tag. -/
def OSSL_PARAM_UTF8_PTR : Nat := 6

/-- Modelled from the spec: parameter name OSSL_PROV_PARAM_NAME. -/
def OSSL_PROV_PARAM_NAME : String := "name"

/-- Modelled from the spec: parameter name OSSL_PROV_PARAM_VERSION. -/
def OSSL_PROV_PARAM_VERSION : String := "version"

/-- Modelled from the spec: parameter name OSSL_PROV_PARAM_BUILDINFO. -/
def OSSL_PROV_PARAM_BUILDINFO : String := "buildinfo"

/-- Modelled from the spec: the OPENSSL_VERSION_STR build constant
(an opaque display string; its exact content is external to the sources). -/
def OPENSSL_VERSION_STR : String := "3.0.0"

/-- Modelled from the spec: the OPENSSL_FULL_VERSION_STR build constant. -/
def OPENSSL_FULL_VERSION_STR : String := "3.0.0-dev"

/-! ## Function tables -/

/-- One entry of an incoming (host-side) dispatch table: a capability id and
an opaque function-pointer handle, as in OSSL_DISPATCH. Id 0 is the table
terminator. -/
structure OSSL_DISPATCH where
  function_id : Nat
  function : Nat
deriving DecidableEq, Repr

/-- The functions of fipsprov.c that appear in the provider's own outgoing
dispatch tables (teardown is OPENSSL_CTX_free used directly). -/
inductive ProviderFn where
  | OPENSSL_CTX_free
  | fips_get_param_types
  | fips_get_params
  | fips_query
deriving DecidableEq, Repr

/-- One entry of an outgoing (provider-side) dispatch table; the terminator
row carries id 0 and a null function pointer. -/
structure ProvDispatch where
  function_id : Nat
  function : Option ProviderFn
deriving DecidableEq, Repr

/-- The table of functions the provider hands to the core
(fips_dispatch_table in fipsprov.c), terminator included. -/
def fips_dispatch_table : List ProvDispatch :=
  [ ⟨OSSL_FUNC_PROVIDER_TEARDOWN, some ProviderFn.OPENSSL_CTX_free⟩,
    ⟨OSSL_FUNC_PROVIDER_GET_PARAM_TYPES, some ProviderFn.fips_get_param_types⟩,
    ⟨OSSL_FUNC_PROVIDER_GET_PARAMS, some ProviderFn.fips_get_params⟩,
    ⟨OSSL_FUNC_PROVIDER_QUERY_OPERATION, some ProviderFn.fips_query⟩,
    ⟨0, none⟩ ]

/-- The table the provider hands to itself on internal re-entry
(intern_dispatch_table in fipsprov.c). -/
def intern_dispatch_table : List ProvDispatch :=
  [ ⟨OSSL_FUNC_PROVIDER_QUERY_OPERATION, some ProviderFn.fips_query⟩,
    ⟨0, none⟩ ]

/-! ## The capability registry: the static c_* pointers -/

/-- The module-side capability registry: the file-scope static function
pointers of fipsprov.c that the negotiation scan assigns. A field is none
while the pointer is unset. The c_OPENSSL_cleanse static exists in the file
but no case of the scan assigns it. The last field is named
c_CRYPTO_secure_malloc_inited here (source: ...ed spelling of that
static). -/
structure CRegistry where
  c_get_param_types : Option Nat
  c_get_params : Option Nat
  c_put_error : Option Nat
  c_add_error_vdata : Option Nat
  c_CRYPTO_malloc : Option Nat
  c_CRYPTO_zalloc : Option Nat
  c_CRYPTO_memdup : Option Nat
  c_CRYPTO_strdup : Option Nat
  c_CRYPTO_strndup : Option Nat
  c_CRYPTO_free : Option Nat
  c_CRYPTO_clear_free : Option Nat
  c_CRYPTO_realloc : Option Nat
  c_CRYPTO_clear_realloc : Option Nat
  c_CRYPTO_secure_malloc : Option Nat
  c_CRYPTO_secure_zalloc : Option Nat
  c_CRYPTO_secure_free : Option Nat
  c_CRYPTO_secure_clear_free : Option Nat
  c_CRYPTO_secure_malloc_inited : Option Nat
  c_OPENSSL_cleanse : Option Nat
deriving DecidableEq, Repr

/-- All statics unset: the registry before any negotiation. -/
def emptyCRegistry : CRegistry :=
  ⟨none, none, none, none, none, none, none, none, none, none,
   none, none, none, none, none, none, none, none, none⟩

/-- The capability ids the scan in OSSL_provider_init recognises (the cases
of its switch statement). -/
def knownCoreIds : List Nat :=
  [ OSSL_FUNC_CORE_GET_PARAM_TYPES, OSSL_FUNC_CORE_GET_PARAMS,
    OSSL_FUNC_CORE_PUT_ERROR, OSSL_FUNC_CORE_ADD_ERROR_VDATA,
    OSSL_FUNC_CORE_GET_CRYPTO_MALLOC, OSSL_FUNC_CORE_GET_CRYPTO_ZALLOC,
    OSSL_FUNC_CORE_GET_CRYPTO_MEMDUP, OSSL_FUNC_CORE_GET_CRYPTO_STRDUP,
    OSSL_FUNC_CORE_GET_CRYPTO_STRNDUP, OSSL_FUNC_CORE_GET_CRYPTO_FREE,
    OSSL_FUNC_CORE_GET_CRYPTO_CLEAR_FREE, OSSL_FUNC_CORE_GET_CRYPTO_REALLOC,
    OSSL_FUNC_CORE_GET_CRYPTO_CLEAR_REALLOC,
    OSSL_FUNC_CORE_GET_CRYPTO_SECURE_MALLOC,
    OSSL_FUNC_CORE_GET_CRYPTO_SECURE_ZALLOC,
    OSSL_FUNC_CORE_GET_CRYPTO_SECURE_FREE,
    OSSL_FUNC_CORE_GET_CRYPTO_SECURE_CLEAR_FREE,
    OSSL_FUNC_CORE_GET_CRYPTO_SECURE_MALLOC_INITED ]

/-- One iteration of the scan loop in OSSL_provider_init: dispatch on the
entry's capability id and store the pointer in the matching static; the
default case ignores the entry. -/
def scanStep (r : CRegistry) (e : OSSL_DISPATCH) : CRegistry :=
  if e.function_id = OSSL_FUNC_CORE_GET_PARAM_TYPES then
    { r with c_get_param_types := some e.function }
  else if e.function_id = OSSL_FUNC_CORE_GET_PARAMS then
    { r with c_get_params := some e.function }
  else if e.function_id = OSSL_FUNC_CORE_PUT_ERROR then
    { r with c_put_error := some e.function }
  else if e.function_id = OSSL_FUNC_CORE_ADD_ERROR_VDATA then
    { r with c_add_error_vdata := some e.function }
  else if e.function_id = OSSL_FUNC_CORE_GET_CRYPTO_MALLOC then
    { r with c_CRYPTO_malloc := some e.function }
  else if e.function_id = OSSL_FUNC_CORE_GET_CRYPTO_ZALLOC then
    { r with c_CRYPTO_zalloc := some e.function }
  else if e.function_id = OSSL_FUNC_CORE_GET_CRYPTO_MEMDUP then
    { r with c_CRYPTO_memdup := some e.function }
  else if e.function_id = OSSL_FUNC_CORE_GET_CRYPTO_STRDUP then
    { r with c_CRYPTO_strdup := some e.function }
  else if e.function_id = OSSL_FUNC_CORE_GET_CRYPTO_STRNDUP then
    { r with c_CRYPTO_strndup := some e.function }
  else if e.function_id = OSSL_FUNC_CORE_GET_CRYPTO_FREE then
    { r with c_CRYPTO_free := some e.function }
  else if e.function_id = OSSL_FUNC_CORE_GET_CRYPTO_CLEAR_FREE then
    { r with c_CRYPTO_clear_free := some e.function }
  else if e.function_id = OSSL_FUNC_CORE_GET_CRYPTO_REALLOC then
    { r with c_CRYPTO_realloc := some e.function }
  else if e.function_id = OSSL_FUNC_CORE_GET_CRYPTO_CLEAR_REALLOC then
    { r with c_CRYPTO_clear_realloc := some e.function }
  else if e.function_id = OSSL_FUNC_CORE_GET_CRYPTO_SECURE_MALLOC then
    { r with c_CRYPTO_secure_malloc := some e.function }
  else if e.function_id = OSSL_FUNC_CORE_GET_CRYPTO_SECURE_ZALLOC then
    { r with c_CRYPTO_secure_zalloc := some e.function }
  else if e.function_id = OSSL_FUNC_CORE_GET_CRYPTO_SECURE_FREE then
    { r with c_CRYPTO_secure_free := some e.function }
  else if e.function_id = OSSL_FUNC_CORE_GET_CRYPTO_SECURE_CLEAR_FREE then
    { r with c_CRYPTO_secure_clear_free := some e.function }
  else if e.function_id = OSSL_FUNC_CORE_GET_CRYPTO_SECURE_MALLOC_INITED then
    { r with c_CRYPTO_secure_malloc_inited := some e.function }
  else
    r

/-- The scan loop over a list of already-determinated entries, left to
right. -/
def scanEntries (r : CRegistry) (es : List OSSL_DISPATCH) : CRegistry :=
  es.foldl scanStep r

/-- The entries the loop actually visits: the table up to (excluding) the
first terminator entry, mirroring for (; in->function_id != 0; in++). -/
def consumedEntries (l : List OSSL_DISPATCH) : List OSSL_DISPATCH :=
  l.takeWhile (fun e => e.function_id ≠ 0)

/-- The whole table scan of OSSL_provider_init. -/
def scanTable (r : CRegistry) (l : List OSSL_DISPATCH) : CRegistry :=
  scanEntries r (consumedEntries l)

/-! ## The self-check: dummy_evp_call -/

/-- The SHA-256 digest of the message "Hello World!" hard-coded in
dummy_evp_call as the known answer (the exptd array). -/
def exptd : List Nat :=
  [ 0x7f, 0x83, 0xb1, 0x65, 0x7f, 0xf1, 0xfc, 0x53, 0xb9, 0x2d, 0xc1, 0x81,
    0x48, 0xa1, 0xd6, 0x5d, 0xfc, 0x2d, 0x4b, 0x1f, 0xa3, 0xd6, 0x77, 0x28,
    0x4a, 0xdd, 0xd2, 0x00, 0x12, 0x6d, 0x90, 0x69 ]

/-- Modelled from the spec: the outcomes of the external EVP collaborators
invoked by dummy_evp_call. md_ctx_ok means EVP_MD_CTX_new returned non-null,
fetch_ok likewise for EVP_MD_fetch; the three op flags are the boolean
results of DigestInit/Update/Final; dgst and dgstlen are the digest buffer
and length DigestFinal produced. -/
structure EvpEnv where
  md_ctx_ok : Bool
  fetch_ok : Bool
  digestInit_ok : Bool
  digestUpdate_ok : Bool
  digestFinal_ok : Bool
  dgstlen : Nat
  dgst : List Nat
deriving DecidableEq, Repr

/-- The known-answer self-check (dummy_evp_call in fipsprov.c): every guard
jumps to the error exit leaving ret = 0; only when the digest length and
bytes match the hard-coded answer is ret set to 1. -/
def dummy_evp_call (e : EvpEnv) : Nat :=
  if !e.md_ctx_ok || !e.fetch_ok then 0
  else if !e.digestInit_ok then 0
  else if !e.digestUpdate_ok then 0
  else if !e.digestFinal_ok then 0
  else if e.dgstlen ≠ exptd.length ∨ e.dgst ≠ exptd then 0
  else 1

/-- An EvpEnv in which every collaborator succeeds and the digest is the
known answer, so the self-check passes. -/
def evpOk : EvpEnv :=
  ⟨true, true, true, true, true, exptd.length, exptd⟩

/-! ## The negotiation entry points -/

/-- Modelled from the spec: the oracle inputs of one negotiation — the
result of the external allocator call OPENSSL_CTX_new (none models a null
return) and the EVP collaborator outcomes of the self-check. -/
structure Env where
  ctx_new : Option Nat
  evp : EvpEnv
deriving DecidableEq, Repr

/-- The observable outcome of a negotiation entry point: the C return
value, the two caller slots (out dispatch table and provctx) with the
values they hold after the call, the capability registry after the call,
the Context allocation and release events, and how many times the
self-check ran. -/
structure InitResult where
  ret : Nat
  outSlot : Option (List ProvDispatch)
  ctxSlot : Option Nat
  reg : CRegistry
  allocs : List Nat
  frees : List Nat
  selfChecks : Nat
deriving DecidableEq, Repr

/-- OSSL_provider_init: scan the incoming table into the static registry;
allocate the Context (abort on null); run the self-check (on failure free
the Context and abort); on success write the outgoing table and the context
handle and return 1. The slots hold their incoming values unless the
function writes them. -/
def OSSL_provider_init (env : Env) (provider : Nat)
    (inTab : List OSSL_DISPATCH)
    (outSlot : Option (List ProvDispatch)) (ctxSlot : Option Nat)
    (reg : CRegistry) : InitResult :=
  let reg2 := scanTable reg inTab
  match env.ctx_new with
  | none =>
      { ret := 0, outSlot := outSlot, ctxSlot := ctxSlot, reg := reg2,
        allocs := [], frees := [], selfChecks := 0 }
  | some ctx =>
      if dummy_evp_call env.evp = 0 then
        { ret := 0, outSlot := outSlot, ctxSlot := ctxSlot, reg := reg2,
          allocs := [ctx], frees := [ctx], selfChecks := 1 }
      else
        { ret := 1, outSlot := some fips_dispatch_table, ctxSlot := some ctx,
          reg := reg2, allocs := [ctx], frees := [], selfChecks := 1 }

/-- fips_intern_provider_init: the recursive entry point. It ignores the
incoming table and the pre-populated provctx slot, writes the internal
dispatch table and returns 1 — no Context creation, no self-check, no
registry update. -/
def fips_intern_provider_init (provider : Nat)
    (inTab : List OSSL_DISPATCH)
    (outSlot : Option (List ProvDispatch)) (ctxSlot : Option Nat)
    (reg : CRegistry) : InitResult :=
  { ret := 1, outSlot := some intern_dispatch_table, ctxSlot := ctxSlot,
    reg := reg, allocs := [], frees := [], selfChecks := 0 }

/-! ## The parameter protocol -/

/-- One OSSL_PARAM request slot: a name, the caller-declared semantic type
tag, and the out-value the slot's data pointer refers to (none while
unfilled). -/
structure OSSL_PARAM where
  key : String
  data_type : Nat
  value : Option String
deriving DecidableEq, Repr

/-- One OSSL_ITEM parameter descriptor (type tag, name); the terminator row
has id 0 and a null name. -/
structure OSSL_ITEM where
  id : Nat
  ptr : Option String
deriving DecidableEq, Repr

/-- The static descriptor list fips_param_types, terminator included. -/
def fips_param_types : List OSSL_ITEM :=
  [ ⟨OSSL_PARAM_UTF8_PTR, some OSSL_PROV_PARAM_NAME⟩,
    ⟨OSSL_PARAM_UTF8_PTR, some OSSL_PROV_PARAM_VERSION⟩,
    ⟨OSSL_PARAM_UTF8_PTR, some OSSL_PROV_PARAM_BUILDINFO⟩,
    ⟨0, none⟩ ]

/-- fips_get_param_types: returns the static descriptor list. -/
def fips_get_param_types (prov : Nat) : List OSSL_ITEM :=
  fips_param_types

/-- The parameter names fips_get_params knows (the non-terminator names of
fips_param_types). -/
def knownParamKeys : List String :=
  [OSSL_PROV_PARAM_NAME, OSSL_PROV_PARAM_VERSION, OSSL_PROV_PARAM_BUILDINFO]

/-- Modelled from the spec: one locate-then-set step of fips_get_params,
p = OSSL_PARAM_locate(params, key) followed by OSSL_PARAM_set_utf8_ptr(p, v).
Locate returns the first slot whose name matches; a missing name is not an
error (true, list unchanged); set writes the value when the slot's declared
type is OSSL_PARAM_UTF8_PTR and fails without writing otherwise. -/
def locate_set (key v : String) : List OSSL_PARAM → Bool × List OSSL_PARAM
  | [] => (true, [])
  | p :: rest =>
      if p.key = key then
        if p.data_type = OSSL_PARAM_UTF8_PTR then
          (true, { p with value := some v } :: rest)
        else
          (false, p :: rest)
      else
        let r := locate_set key v rest
        (r.1, p :: r.2)

/-- fips_get_params: resolve the name, version and buildinfo requests in
that order; each locate-then-set failure returns 0 at once (the C
`if (p != NULL && !OSSL_PARAM_set_utf8_ptr(...)) return 0`); otherwise
return 1. The returned list is the request array as left in memory. -/
def fips_get_params (ps : List OSSL_PARAM) : Nat × List OSSL_PARAM :=
  match locate_set OSSL_PROV_PARAM_NAME "OpenSSL FIPS Provider" ps with
  | (false, ps1) => (0, ps1)
  | (true, ps1) =>
    match locate_set OSSL_PROV_PARAM_VERSION OPENSSL_VERSION_STR ps1 with
    | (false, ps2) => (0, ps2)
    | (true, ps2) =>
      match locate_set OSSL_PROV_PARAM_BUILDINFO OPENSSL_FULL_VERSION_STR ps2 with
      | (false, ps3) => (0, ps3)
      | (true, ps3) => (1, ps3)

/-! ## The algorithm registry -/

/-- One OSSL_ALGORITHM descriptor (name, property-selector string, opaque
handle of the per-algorithm function table); the terminator row is all
null. -/
structure OSSL_ALGORITHM where
  algorithm_names : Option String
  property_definition : Option String
  implementation : Option Nat
deriving DecidableEq, Repr

/-- Modelled from the spec: the extern per-algorithm dispatch table
sha256_functions, an opaque pointer handle here. -/
def sha256_functions : Nat := 100

/-- The static digest descriptor list fips_digests, terminator included. -/
def fips_digests : List OSSL_ALGORITHM :=
  [ ⟨some "SHA256", some "fips=yes", some sha256_functions⟩,
    ⟨none, none, none⟩ ]

/-- fips_query: write 0 through the no_cache out-parameter, then switch on
the operation id — the digest category returns fips_digests, everything
else returns null. The pair is (returned list or null, no_cache value
left in the caller's slot). -/
def fips_query (prov : Nat) (operation_id : Nat) :
    Option (List OSSL_ALGORITHM) × Nat :=
  (if operation_id = OSSL_OP_DIGEST then some fips_digests else none, 0)

/-! ## Concrete negotiation inputs used by the witnesses -/

/-- A negotiation environment in which allocation succeeds (Context handle
7) and the self-check passes. -/
def envOk : Env := ⟨some 7, evpOk⟩

/-- A negotiation environment in which allocation succeeds but the digest
initialisation collaborator fails, so the self-check fails. -/
def envCheckFail : Env := ⟨some 7, { evpOk with digestInit_ok := false }⟩

/-- A negotiation environment in which OPENSSL_CTX_new returns null. -/
def envAllocFail : Env := ⟨none, evpOk⟩

/-- A one-entry host table carrying the core get-params capability with
pointer handle 42. -/
def tabGetParams42 : List OSSL_DISPATCH :=
  [⟨OSSL_FUNC_CORE_GET_PARAMS, 42⟩]

/-- A host-table fragment with one known-id entry and one unknown-id
entry. -/
def tabKnownPlusUnknown : List OSSL_DISPATCH :=
  [⟨OSSL_FUNC_CORE_GET_PARAMS, 42⟩, ⟨9999, 77⟩]

/-- The pointwise preservation relation a locate-then-set pass guarantees:
names and declared types are never changed, and a slot whose name is
outside ks is left untouched. -/
def PresKeys (ks : List String) (p q : OSSL_PARAM) : Prop :=
  p.key = q.key ∧ p.data_type = q.data_type ∧ (p.key ∉ ks → q = p)

/-- The scan step instrumented with a capture-event log: each recognised
case stores the pointer exactly as scanStep does and additionally records
the consumed entry; the default case touches nothing. -/
def scanStepCap (acc : CRegistry × List OSSL_DISPATCH) (e : OSSL_DISPATCH) :
    CRegistry × List OSSL_DISPATCH :=
  if e.function_id = OSSL_FUNC_CORE_GET_PARAM_TYPES then
    ({ acc.1 with c_get_param_types := some e.function }, acc.2 ++ [e])
  else if e.function_id = OSSL_FUNC_CORE_GET_PARAMS then
    ({ acc.1 with c_get_params := some e.function }, acc.2 ++ [e])
  else if e.function_id = OSSL_FUNC_CORE_PUT_ERROR then
    ({ acc.1 with c_put_error := some e.function }, acc.2 ++ [e])
  else if e.function_id = OSSL_FUNC_CORE_ADD_ERROR_VDATA then
    ({ acc.1 with c_add_error_vdata := some e.function }, acc.2 ++ [e])
  else if e.function_id = OSSL_FUNC_CORE_GET_CRYPTO_MALLOC then
    ({ acc.1 with c_CRYPTO_malloc := some e.function }, acc.2 ++ [e])
  else if e.function_id = OSSL_FUNC_CORE_GET_CRYPTO_ZALLOC then
    ({ acc.1 with c_CRYPTO_zalloc := some e.function }, acc.2 ++ [e])
  else if e.function_id = OSSL_FUNC_CORE_GET_CRYPTO_MEMDUP then
    ({ acc.1 with c_CRYPTO_memdup := some e.function }, acc.2 ++ [e])
  else if e.function_id = OSSL_FUNC_CORE_GET_CRYPTO_STRDUP then
    ({ acc.1 with c_CRYPTO_strdup := some e.function }, acc.2 ++ [e])
  else if e.function_id = OSSL_FUNC_CORE_GET_CRYPTO_STRNDUP then
    ({ acc.1 with c_CRYPTO_strndup := some e.function }, acc.2 ++ [e])
  else if e.function_id = OSSL_FUNC_CORE_GET_CRYPTO_FREE then
    ({ acc.1 with c_CRYPTO_free := some e.function }, acc.2 ++ [e])
  else if e.function_id = OSSL_FUNC_CORE_GET_CRYPTO_CLEAR_FREE then
    ({ acc.1 with c_CRYPTO_clear_free := some e.function }, acc.2 ++ [e])
  else if e.function_id = OSSL_FUNC_CORE_GET_CRYPTO_REALLOC then
    ({ acc.1 with c_CRYPTO_realloc := some e.function }, acc.2 ++ [e])
  else if e.function_id = OSSL_FUNC_CORE_GET_CRYPTO_CLEAR_REALLOC then
    ({ acc.1 with c_CRYPTO_clear_realloc := some e.function }, acc.2 ++ [e])
  else if e.function_id = OSSL_FUNC_CORE_GET_CRYPTO_SECURE_MALLOC then
    ({ acc.1 with c_CRYPTO_secure_malloc := some e.function }, acc.2 ++ [e])
  else if e.function_id = OSSL_FUNC_CORE_GET_CRYPTO_SECURE_ZALLOC then
    ({ acc.1 with c_CRYPTO_secure_zalloc := some e.function }, acc.2 ++ [e])
  else if e.function_id = OSSL_FUNC_CORE_GET_CRYPTO_SECURE_FREE then
    ({ acc.1 with c_CRYPTO_secure_free := some e.function }, acc.2 ++ [e])
  else if e.function_id = OSSL_FUNC_CORE_GET_CRYPTO_SECURE_CLEAR_FREE then
    ({ acc.1 with c_CRYPTO_secure_clear_free := some e.function }, acc.2 ++ [e])
  else if e.function_id = OSSL_FUNC_CORE_GET_CRYPTO_SECURE_MALLOC_INITED then
    ({ acc.1 with c_CRYPTO_secure_malloc_inited := some e.function }, acc.2 ++ [e])
  else
    acc

/-- The instrumented scan over a list of entries, starting from an empty
capture log. -/
def scanCap (r : CRegistry) (es : List OSSL_DISPATCH) :
    CRegistry × List OSSL_DISPATCH :=
  es.foldl scanStepCap (r, [])

/-- A request array whose first slot asks for the name parameter with the
correct type tag and whose second slot asks for the version parameter with
a wrong type tag. -/
def psMismatch : List OSSL_PARAM :=
  [ ⟨OSSL_PROV_PARAM_NAME, OSSL_PARAM_UTF8_PTR, none⟩,
    ⟨OSSL_PROV_PARAM_VERSION, 999, none⟩ ]

/-! ## Theorems -/

/-- C1: if the self-check fails during an external negotiation (the Context
was allocated but dummy_evp_call returned 0), OSSL_provider_init frees the
Context it allocated, returns 0, and leaves both the outgoing
dispatch-table slot and the context-handle slot exactly as the caller
passed them, so the module never becomes externally callable in a failed
self-check state. -/
theorem OSSL_provider_init_selfcheck_failure_aborts
    (env : Env) (provider : Nat) (inTab : List OSSL_DISPATCH)
    (outSlot : Option (List ProvDispatch)) (ctxSlot : Option Nat)
    (reg : CRegistry) (c : Nat)
    (halloc : env.ctx_new = some c)
    (hcheck : dummy_evp_call env.evp = 0) :
    (OSSL_provider_init env provider inTab outSlot ctxSlot reg).ret = 0 ∧
    (OSSL_provider_init env provider inTab outSlot ctxSlot reg).outSlot = outSlot ∧
    (OSSL_provider_init env provider inTab outSlot ctxSlot reg).ctxSlot = ctxSlot ∧
    (OSSL_provider_init env provider inTab outSlot ctxSlot reg).allocs = [c] ∧
    (OSSL_provider_init env provider inTab outSlot ctxSlot reg).frees = [c] := by
  simp [OSSL_provider_init, halloc, hcheck]

theorem OSSL_provider_init_selfcheck_failure_aborts_witness :
    (OSSL_provider_init envCheckFail 0 tabGetParams42 none none emptyCRegistry).ret = 0 ∧
    (OSSL_provider_init envCheckFail 0 tabGetParams42 none none emptyCRegistry).outSlot = none ∧
    (OSSL_provider_init envCheckFail 0 tabGetParams42 none none emptyCRegistry).ctxSlot = none ∧
    (OSSL_provider_init envCheckFail 0 tabGetParams42 none none emptyCRegistry).allocs = [7] ∧
    (OSSL_provider_init envCheckFail 0 tabGetParams42 none none emptyCRegistry).frees = [7] :=
  OSSL_provider_init_selfcheck_failure_aborts envCheckFail 0 tabGetParams42
    none none emptyCRegistry 7 (by decide) (by decide)

/-- C2: if Context allocation fails (OPENSSL_CTX_new returns null),
OSSL_provider_init returns 0 with no Context ever allocated or outstanding
and with both caller slots left exactly as they were passed: negotiation is
all-or-nothing. -/
theorem OSSL_provider_init_alloc_failure_aborts
    (env : Env) (provider : Nat) (inTab : List OSSL_DISPATCH)
    (outSlot : Option (List ProvDispatch)) (ctxSlot : Option Nat)
    (reg : CRegistry)
    (halloc : env.ctx_new = none) :
    (OSSL_provider_init env provider inTab outSlot ctxSlot reg).ret = 0 ∧
    (OSSL_provider_init env provider inTab outSlot ctxSlot reg).outSlot = outSlot ∧
    (OSSL_provider_init env provider inTab outSlot ctxSlot reg).ctxSlot = ctxSlot ∧
    (OSSL_provider_init env provider inTab outSlot ctxSlot reg).allocs = [] ∧
    (OSSL_provider_init env provider inTab outSlot ctxSlot reg).frees = [] := by
  simp [OSSL_provider_init, halloc]

theorem OSSL_provider_init_alloc_failure_aborts_witness :
    (OSSL_provider_init envAllocFail 0 tabGetParams42 none none emptyCRegistry).ret = 0 ∧
    (OSSL_provider_init envAllocFail 0 tabGetParams42 none none emptyCRegistry).outSlot = none ∧
    (OSSL_provider_init envAllocFail 0 tabGetParams42 none none emptyCRegistry).ctxSlot = none ∧
    (OSSL_provider_init envAllocFail 0 tabGetParams42 none none emptyCRegistry).allocs = [] ∧
    (OSSL_provider_init envAllocFail 0 tabGetParams42 none none emptyCRegistry).frees = [] :=
  OSSL_provider_init_alloc_failure_aborts envAllocFail 0 tabGetParams42
    none none emptyCRegistry rfl

/-- C4 counterexample: an aborted negotiation does NOT leave the static
c_* registry as it was before the scan. Starting from the all-unset
registry, scanning a table that carries the core get-params capability
(pointer 42) and then failing allocation returns 0 yet leaves
c_get_params = 42 captured. -/
theorem OSSL_provider_init_captures_retained_cex :
    (OSSL_provider_init envAllocFail 0 tabGetParams42 none none emptyCRegistry).ret = 0 ∧
    (OSSL_provider_init envAllocFail 0 tabGetParams42 none none emptyCRegistry).reg ≠ emptyCRegistry ∧
    (OSSL_provider_init envAllocFail 0 tabGetParams42 none none emptyCRegistry).reg.c_get_params = some 42 := by
  decide

/-- C4 amended: when a negotiation aborts (return 0), every host pointer
captured during that negotiation's table scan is retained, not discarded:
the capability registry after the failed call is exactly the post-scan
registry. -/
theorem OSSL_provider_init_abort_registry_is_post_scan
    (env : Env) (provider : Nat) (inTab : List OSSL_DISPATCH)
    (outSlot : Option (List ProvDispatch)) (ctxSlot : Option Nat)
    (reg : CRegistry)
    (habort : (OSSL_provider_init env provider inTab outSlot ctxSlot reg).ret = 0) :
    (OSSL_provider_init env provider inTab outSlot ctxSlot reg).reg =
      scanTable reg inTab := by
  unfold OSSL_provider_init
  cases env.ctx_new with
  | none => rfl
  | some c =>
      dsimp only
      split
      · rfl
      · rfl

theorem OSSL_provider_init_abort_registry_is_post_scan_witness :
    (OSSL_provider_init envAllocFail 0 tabGetParams42 none none emptyCRegistry).reg =
      scanTable emptyCRegistry tabGetParams42 :=
  OSSL_provider_init_abort_registry_is_post_scan envAllocFail 0 tabGetParams42
    none none emptyCRegistry (by decide)

/-- C8: querying the algorithm registry for any operation category other
than the digest category returns the absent list (null) and still
completes normally, leaving 0 in the no-cache slot: an unrecognized
category is not an error. -/
theorem fips_query_unknown_category_empty
    (prov operation_id : Nat) (h : operation_id ≠ OSSL_OP_DIGEST) :
    (fips_query prov operation_id).1 = none ∧
    (fips_query prov operation_id).2 = 0 := by
  simp [fips_query, h]

theorem fips_query_unknown_category_empty_witness :
    (fips_query 0 7).1 = none ∧ (fips_query 0 7).2 = 0 :=
  fips_query_unknown_category_empty 0 7 (by decide)

/-- C9: every algorithm-registry query, whatever the operation category,
writes 0 (cacheable) through the no-cache out-parameter, so consumers may
cache the returned list: the module's tables are static. -/
theorem fips_query_cacheable (prov operation_id : Nat) :
    (fips_query prov operation_id).2 = 0 :=
  rfl

/-- C10: for every provider handle, incoming table, out-slot value and
context-slot value, the internal re-entry point returns 1, writes the
internal dispatch table into the outgoing slot, and leaves the context
slot, the capability registry, the allocation and free event lists and
the self-check count untouched: it validates nothing. -/
theorem fips_intern_provider_init_frame
    (provider : Nat) (inTab : List OSSL_DISPATCH)
    (outSlot : Option (List ProvDispatch)) (ctxSlot : Option Nat)
    (reg : CRegistry) :
    fips_intern_provider_init provider inTab outSlot ctxSlot reg =
      { ret := 1, outSlot := some intern_dispatch_table, ctxSlot := ctxSlot,
        reg := reg, allocs := [], frees := [], selfChecks := 0 } :=
  rfl

/-- C5: re-entering through fips_intern_provider_init with the context and
registry produced by a successful external negotiation returns 1 and the
module's internal FunctionTable, creates no second Context and runs no
self-check, while the external negotiation itself performed exactly one
Context-creation event. -/
theorem fips_intern_reuses_context
    (env : Env) (provider provider2 : Nat)
    (inTab inTab2 : List OSSL_DISPATCH)
    (outSlot outSlot2 : Option (List ProvDispatch)) (ctxSlot : Option Nat)
    (reg : CRegistry)
    (hsucc : (OSSL_provider_init env provider inTab outSlot ctxSlot reg).ret = 1) :
    (fips_intern_provider_init provider2 inTab2 outSlot2
        (OSSL_provider_init env provider inTab outSlot ctxSlot reg).ctxSlot
        (OSSL_provider_init env provider inTab outSlot ctxSlot reg).reg).ret = 1 ∧
    (fips_intern_provider_init provider2 inTab2 outSlot2
        (OSSL_provider_init env provider inTab outSlot ctxSlot reg).ctxSlot
        (OSSL_provider_init env provider inTab outSlot ctxSlot reg).reg).outSlot =
      some intern_dispatch_table ∧
    (fips_intern_provider_init provider2 inTab2 outSlot2
        (OSSL_provider_init env provider inTab outSlot ctxSlot reg).ctxSlot
        (OSSL_provider_init env provider inTab outSlot ctxSlot reg).reg).allocs = [] ∧
    (fips_intern_provider_init provider2 inTab2 outSlot2
        (OSSL_provider_init env provider inTab outSlot ctxSlot reg).ctxSlot
        (OSSL_provider_init env provider inTab outSlot ctxSlot reg).reg).selfChecks = 0 ∧
    (OSSL_provider_init env provider inTab outSlot ctxSlot reg).allocs.length = 1 := by
  refine ⟨rfl, rfl, rfl, rfl, ?_⟩
  unfold OSSL_provider_init at hsucc ⊢
  cases h : env.ctx_new with
  | none => rw [h] at hsucc; simp at hsucc
  | some c =>
      rw [h] at hsucc
      dsimp only at hsucc ⊢
      by_cases hd : dummy_evp_call env.evp = 0
      · simp [hd] at hsucc
      · simp [hd]

theorem fips_intern_reuses_context_witness :
    (fips_intern_provider_init 0 [] none
        (OSSL_provider_init envOk 0 tabGetParams42 none none emptyCRegistry).ctxSlot
        (OSSL_provider_init envOk 0 tabGetParams42 none none emptyCRegistry).reg).ret = 1 ∧
    (fips_intern_provider_init 0 [] none
        (OSSL_provider_init envOk 0 tabGetParams42 none none emptyCRegistry).ctxSlot
        (OSSL_provider_init envOk 0 tabGetParams42 none none emptyCRegistry).reg).outSlot =
      some intern_dispatch_table ∧
    (fips_intern_provider_init 0 [] none
        (OSSL_provider_init envOk 0 tabGetParams42 none none emptyCRegistry).ctxSlot
        (OSSL_provider_init envOk 0 tabGetParams42 none none emptyCRegistry).reg).allocs = [] ∧
    (fips_intern_provider_init 0 [] none
        (OSSL_provider_init envOk 0 tabGetParams42 none none emptyCRegistry).ctxSlot
        (OSSL_provider_init envOk 0 tabGetParams42 none none emptyCRegistry).reg).selfChecks = 0 ∧
    (OSSL_provider_init envOk 0 tabGetParams42 none none emptyCRegistry).allocs.length = 1 :=
  fips_intern_reuses_context envOk 0 0 tabGetParams42 [] none none none
    emptyCRegistry (by decide)

/-! ## Theorems about the table scan -/

set_option maxHeartbeats 1000000 in
theorem scanStep_unknown (r : CRegistry) (e : OSSL_DISPATCH)
    (h : e.function_id ∉ knownCoreIds) : scanStep r e = r := by
  simp only [knownCoreIds, List.mem_cons, List.not_mem_nil, or_false,
    not_or] at h
  obtain ⟨h1, h2, h3, h4, h5, h6, h7, h8, h9, h10, h11, h12, h13, h14, h15,
    h16, h17, h18⟩ := h
  simp [scanStep, h1, h2, h3, h4, h5, h6, h7, h8, h9, h10, h11, h12, h13,
    h14, h15, h16, h17, h18]

set_option maxHeartbeats 2000000 in
theorem scanStepCap_eq (r : CRegistry) (acc : List OSSL_DISPATCH)
    (e : OSSL_DISPATCH) :
    scanStepCap (r, acc) e =
      (scanStep r e,
        if e.function_id ∈ knownCoreIds then acc ++ [e] else acc) := by
  unfold scanStepCap scanStep
  by_cases h1 : e.function_id = OSSL_FUNC_CORE_GET_PARAM_TYPES
  · rw [if_pos h1, if_pos h1,
      if_pos (show e.function_id ∈ knownCoreIds by rw [h1]; decide)]
  · rw [if_neg h1, if_neg h1]
    by_cases h2 : e.function_id = OSSL_FUNC_CORE_GET_PARAMS
    · rw [if_pos h2, if_pos h2,
        if_pos (show e.function_id ∈ knownCoreIds by rw [h2]; decide)]
    · rw [if_neg h2, if_neg h2]
      by_cases h3 : e.function_id = OSSL_FUNC_CORE_PUT_ERROR
      · rw [if_pos h3, if_pos h3,
          if_pos (show e.function_id ∈ knownCoreIds by rw [h3]; decide)]
      · rw [if_neg h3, if_neg h3]
        by_cases h4 : e.function_id = OSSL_FUNC_CORE_ADD_ERROR_VDATA
        · rw [if_pos h4, if_pos h4,
            if_pos (show e.function_id ∈ knownCoreIds by rw [h4]; decide)]
        · rw [if_neg h4, if_neg h4]
          by_cases h5 : e.function_id = OSSL_FUNC_CORE_GET_CRYPTO_MALLOC
          · rw [if_pos h5, if_pos h5,
              if_pos (show e.function_id ∈ knownCoreIds by rw [h5]; decide)]
          · rw [if_neg h5, if_neg h5]
            by_cases h6 : e.function_id = OSSL_FUNC_CORE_GET_CRYPTO_ZALLOC
            · rw [if_pos h6, if_pos h6,
                if_pos (show e.function_id ∈ knownCoreIds by rw [h6]; decide)]
            · rw [if_neg h6, if_neg h6]
              by_cases h7 : e.function_id = OSSL_FUNC_CORE_GET_CRYPTO_MEMDUP
              · rw [if_pos h7, if_pos h7,
                  if_pos (show e.function_id ∈ knownCoreIds by rw [h7]; decide)]
              · rw [if_neg h7, if_neg h7]
                by_cases h8 : e.function_id = OSSL_FUNC_CORE_GET_CRYPTO_STRDUP
                · rw [if_pos h8, if_pos h8,
                    if_pos (show e.function_id ∈ knownCoreIds by rw [h8]; decide)]
                · rw [if_neg h8, if_neg h8]
                  by_cases h9 : e.function_id = OSSL_FUNC_CORE_GET_CRYPTO_STRNDUP
                  · rw [if_pos h9, if_pos h9,
                      if_pos (show e.function_id ∈ knownCoreIds by rw [h9]; decide)]
                  · rw [if_neg h9, if_neg h9]
                    by_cases h10 : e.function_id = OSSL_FUNC_CORE_GET_CRYPTO_FREE
                    · rw [if_pos h10, if_pos h10,
                        if_pos (show e.function_id ∈ knownCoreIds by rw [h10]; decide)]
                    · rw [if_neg h10, if_neg h10]
                      by_cases h11 : e.function_id = OSSL_FUNC_CORE_GET_CRYPTO_CLEAR_FREE
                      · rw [if_pos h11, if_pos h11,
                          if_pos (show e.function_id ∈ knownCoreIds by rw [h11]; decide)]
                      · rw [if_neg h11, if_neg h11]
                        by_cases h12 : e.function_id = OSSL_FUNC_CORE_GET_CRYPTO_REALLOC
                        · rw [if_pos h12, if_pos h12,
                            if_pos (show e.function_id ∈ knownCoreIds by rw [h12]; decide)]
                        · rw [if_neg h12, if_neg h12]
                          by_cases h13 : e.function_id = OSSL_FUNC_CORE_GET_CRYPTO_CLEAR_REALLOC
                          · rw [if_pos h13, if_pos h13,
                              if_pos (show e.function_id ∈ knownCoreIds by rw [h13]; decide)]
                          · rw [if_neg h13, if_neg h13]
                            by_cases h14 : e.function_id = OSSL_FUNC_CORE_GET_CRYPTO_SECURE_MALLOC
                            · rw [if_pos h14, if_pos h14,
                                if_pos (show e.function_id ∈ knownCoreIds by rw [h14]; decide)]
                            · rw [if_neg h14, if_neg h14]
                              by_cases h15 : e.function_id = OSSL_FUNC_CORE_GET_CRYPTO_SECURE_ZALLOC
                              · rw [if_pos h15, if_pos h15,
                                  if_pos (show e.function_id ∈ knownCoreIds by rw [h15]; decide)]
                              · rw [if_neg h15, if_neg h15]
                                by_cases h16 : e.function_id = OSSL_FUNC_CORE_GET_CRYPTO_SECURE_FREE
                                · rw [if_pos h16, if_pos h16,
                                    if_pos (show e.function_id ∈ knownCoreIds by rw [h16]; decide)]
                                · rw [if_neg h16, if_neg h16]
                                  by_cases h17 : e.function_id = OSSL_FUNC_CORE_GET_CRYPTO_SECURE_CLEAR_FREE
                                  · rw [if_pos h17, if_pos h17,
                                      if_pos (show e.function_id ∈ knownCoreIds by rw [h17]; decide)]
                                  · rw [if_neg h17, if_neg h17]
                                    by_cases h18 : e.function_id = OSSL_FUNC_CORE_GET_CRYPTO_SECURE_MALLOC_INITED
                                    · rw [if_pos h18, if_pos h18,
                                        if_pos (show e.function_id ∈ knownCoreIds by rw [h18]; decide)]
                                    · rw [if_neg h18, if_neg h18]
                                      have hnm : e.function_id ∉ knownCoreIds := by
                                        intro hm
                                        simp only [knownCoreIds, List.mem_cons, List.not_mem_nil,
                                          or_false] at hm
                                        rcases hm with h | h | h | h | h | h | h | h | h | h | h | h | h | h | h | h | h | h <;>
                                          contradiction
                                      rw [if_neg hnm]

theorem scanEntries_cons (r : CRegistry) (e : OSSL_DISPATCH)
    (es : List OSSL_DISPATCH) :
    scanEntries r (e :: es) = scanEntries (scanStep r e) es :=
  rfl

theorem scanEntries_filter (r : CRegistry) (es : List OSSL_DISPATCH) :
    scanEntries r es =
      scanEntries r (es.filter fun e => decide (e.function_id ∈ knownCoreIds)) := by
  induction es generalizing r with
  | nil => rfl
  | cons e es ih =>
      by_cases hk : e.function_id ∈ knownCoreIds
      · rw [List.filter_cons, if_pos (by simpa using hk), scanEntries_cons,
          scanEntries_cons]
        exact ih (scanStep r e)
      · rw [List.filter_cons, if_neg (by simpa using hk), scanEntries_cons,
          scanStep_unknown r e hk]
        exact ih r

theorem scanCap_spec (es : List OSSL_DISPATCH) (r : CRegistry)
    (acc : List OSSL_DISPATCH) :
    es.foldl scanStepCap (r, acc) =
      (scanEntries r es,
        acc ++ es.filter fun e => decide (e.function_id ∈ knownCoreIds)) := by
  induction es generalizing r acc with
  | nil => simp [scanEntries]
  | cons e es ih =>
      rw [List.foldl_cons, scanStepCap_eq]
      by_cases hk : e.function_id ∈ knownCoreIds
      · rw [if_pos hk, ih, scanEntries_cons, List.filter_cons,
          if_pos (by simpa using hk)]
        simp
      · rw [if_neg hk, ih, scanEntries_cons, scanStep_unknown r e hk,
          List.filter_cons, if_neg (by simpa using hk)]

/-- C6: the negotiation scan skips entries with unknown capability ids
silently and captures every entry with a known id: the instrumented scan
computes exactly the registry of the real scan, its capture log is
exactly the known-id entries of the table (N known entries give N
captures), the registry result only depends on the known-id entries, and
the return value of OSSL_provider_init never depends on the incoming
table, so no table content can make negotiation error out. -/
theorem scan_skips_unknown_captures_known
    (r : CRegistry) (es : List OSSL_DISPATCH) :
    (scanCap r es).1 = scanEntries r es ∧
    (scanCap r es).2 =
      es.filter (fun e => decide (e.function_id ∈ knownCoreIds)) ∧
    scanEntries r es =
      scanEntries r (es.filter fun e => decide (e.function_id ∈ knownCoreIds)) ∧
    (∀ env provider outSlot ctxSlot reg inTab,
      (OSSL_provider_init env provider inTab outSlot ctxSlot reg).ret =
        (OSSL_provider_init env provider [] outSlot ctxSlot reg).ret) := by
  refine ⟨?_, ?_, scanEntries_filter r es, ?_⟩
  · rw [scanCap, scanCap_spec]
  · rw [scanCap, scanCap_spec]
    simp
  · intro env provider outSlot ctxSlot reg inTab
    unfold OSSL_provider_init
    cases env.ctx_new with
    | none => rfl
    | some c =>
        dsimp only
        by_cases hd : dummy_evp_call env.evp = 0
        · rw [if_pos hd, if_pos hd]
        · rw [if_neg hd, if_neg hd]

/-! ## Theorems about the parameter protocol -/

theorem presKeys_refl (ks : List String) (l : List OSSL_PARAM) :
    List.Forall₂ (PresKeys ks) l l :=
  List.forall₂_same.mpr fun _ _ => ⟨rfl, rfl, fun _ => rfl⟩

theorem locate_set_presKeys (key v : String) (ps : List OSSL_PARAM) :
    List.Forall₂ (PresKeys [key]) ps (locate_set key v ps).2 := by
  induction ps with
  | nil => exact List.Forall₂.nil
  | cons p rest ih =>
      by_cases h : p.key = key
      · by_cases ht : p.data_type = OSSL_PARAM_UTF8_PTR
        · simp only [locate_set, h, ht, if_true]
          refine List.Forall₂.cons ⟨h, ht, fun hc => ?_⟩ (presKeys_refl _ _)
          exact absurd (List.mem_singleton.mpr h) hc
        · simp only [locate_set, h, ht, if_true, if_false]
          exact presKeys_refl _ _
      · simp only [locate_set, h, if_false]
        exact List.Forall₂.cons ⟨rfl, rfl, fun _ => rfl⟩ ih

theorem presKeys_comp {ks1 ks2 : List String} {l1 l2 l3 : List OSSL_PARAM}
    (h1 : List.Forall₂ (PresKeys ks1) l1 l2)
    (h2 : List.Forall₂ (PresKeys ks2) l2 l3) :
    List.Forall₂ (PresKeys (ks1 ++ ks2)) l1 l3 := by
  induction h1 generalizing l3 with
  | nil => cases h2; exact List.Forall₂.nil
  | cons hab htail ih =>
      cases h2 with
      | cons hbc h2tail =>
          obtain ⟨hk1, ht1, hp1⟩ := hab
          obtain ⟨hk2, ht2, hp2⟩ := hbc
          refine List.Forall₂.cons ⟨hk1.trans hk2, ht1.trans ht2, ?_⟩ (ih h2tail)
          intro hn
          rw [List.mem_append, not_or] at hn
          obtain ⟨hn1, hn2⟩ := hn
          rw [hp2 (hk1 ▸ hn2), hp1 hn1]

theorem locate_set_not_found (key v : String) (ps : List OSSL_PARAM)
    (h : ∀ p ∈ ps, p.key ≠ key) : locate_set key v ps = (true, ps) := by
  induction ps with
  | nil => rfl
  | cons p rest ih =>
      have hp : ¬ p.key = key := h p (List.mem_cons_self _ _)
      simp only [locate_set, hp, if_false]
      rw [ih fun q hq => h q (List.mem_cons_of_mem _ hq)]

theorem locate_set_mismatch (key v : String) (ps : List OSSL_PARAM)
    (p : OSSL_PARAM)
    (hf : ps.find? (fun q => decide (q.key = key)) = some p)
    (ht : p.data_type ≠ OSSL_PARAM_UTF8_PTR) :
    locate_set key v ps = (false, ps) := by
  induction ps with
  | nil => simp at hf
  | cons a rest ih =>
      by_cases h : a.key = key
      · rw [List.find?_cons_of_pos _ (by simpa using h)] at hf
        injection hf with hf
        subst hf
        simp only [locate_set, h, if_true, ht, if_false]
      · rw [List.find?_cons_of_neg _ (by simpa using h)] at hf
        simp only [locate_set, h, if_false]
        rw [ih hf]

theorem find_keytype_transport {k : String} {ks : List String}
    {ps qs : List OSSL_PARAM}
    (h : List.Forall₂ (PresKeys ks) ps qs) {p : OSSL_PARAM}
    (hf : ps.find? (fun q => decide (q.key = k)) = some p) :
    ∃ q, qs.find? (fun q2 => decide (q2.key = k)) = some q ∧
      q.key = p.key ∧ q.data_type = p.data_type := by
  induction h with
  | nil => simp at hf
  | @cons a b l1 l2 hab htail ih =>
      obtain ⟨hk, hty, _⟩ := hab
      by_cases ha : a.key = k
      · rw [List.find?_cons_of_pos _ (by simpa using ha)] at hf
        injection hf with hf
        subst hf
        refine ⟨b, ?_, hk.symm, hty.symm⟩
        exact List.find?_cons_of_pos _ (by simpa using (hk ▸ ha))
      · rw [List.find?_cons_of_neg _ (by simpa using ha)] at hf
        obtain ⟨q, hfq, hqs⟩ := ih hf
        refine ⟨q, ?_, hqs⟩
        rw [List.find?_cons_of_neg _ (by simpa using (hk ▸ ha))]
        exact hfq

theorem presKeys_weaken {ks : List String}
    (hsub : ∀ s ∈ ks, s ∈ knownParamKeys) {l1 l2 : List OSSL_PARAM}
    (h : List.Forall₂ (PresKeys ks) l1 l2) :
    List.Forall₂ (fun p q => p.key ∉ knownParamKeys → q = p) l1 l2 :=
  h.imp fun _ _ hab hn => hab.2.2 fun hm => hn (hsub _ hm)


/-- C3 counterexample: a get-parameters call whose name slot is well typed
and whose version slot declares a wrong type returns failure (0), yet the
name slot has already been filled with the provider display string: the
call fails as a whole but a partial fill does occur. -/
theorem fips_get_params_partial_fill_cex :
    (fips_get_params psMismatch).1 = 0 ∧
    (fips_get_params psMismatch).2 ≠ psMismatch ∧
    ((fips_get_params psMismatch).2.head?.map OSSL_PARAM.value) =
      some (some "OpenSSL FIPS Provider") :=
  ⟨rfl, by decide, rfl⟩

/-- C3 amended: whenever some requested name matches a known parameter
(name, version or buildinfo) and the first slot carrying that name
declares a type other than OSSL_PARAM_UTF8_PTR, the whole call fails with
return value 0, stopping at the first type error; slots matched and set
before the mismatching one, however, retain the values already written
(they are not rolled back). -/
theorem fips_get_params_type_mismatch_fails_call (ps : List OSSL_PARAM)
    (h : ∃ k ∈ knownParamKeys, ∃ p,
        ps.find? (fun q => decide (q.key = k)) = some p ∧
        p.data_type ≠ OSSL_PARAM_UTF8_PTR) :
    (fips_get_params ps).1 = 0 := by
  obtain ⟨k, hk, p, hf, ht⟩ := h
  simp only [knownParamKeys, List.mem_cons, List.not_mem_nil, or_false] at hk
  unfold fips_get_params
  rcases hk with rfl | rfl | rfl
  · rw [locate_set_mismatch _ _ _ _ hf ht]
  · cases hs1 : locate_set OSSL_PROV_PARAM_NAME "OpenSSL FIPS Provider" ps with
    | mk b1 ps1 =>
        cases b1 with
        | false => rfl
        | true =>
            dsimp only
            have hrel : List.Forall₂ (PresKeys [OSSL_PROV_PARAM_NAME]) ps ps1 := by
              have hq := locate_set_presKeys OSSL_PROV_PARAM_NAME
                "OpenSSL FIPS Provider" ps
              rw [hs1] at hq
              exact hq
            obtain ⟨q, hfq, _, hqt⟩ := find_keytype_transport hrel hf
            rw [locate_set_mismatch _ _ _ _ hfq (by rw [hqt]; exact ht)]
  · cases hs1 : locate_set OSSL_PROV_PARAM_NAME "OpenSSL FIPS Provider" ps with
    | mk b1 ps1 =>
        cases b1 with
        | false => rfl
        | true =>
            dsimp only
            have hrel1 : List.Forall₂ (PresKeys [OSSL_PROV_PARAM_NAME]) ps ps1 := by
              have hq := locate_set_presKeys OSSL_PROV_PARAM_NAME
                "OpenSSL FIPS Provider" ps
              rw [hs1] at hq
              exact hq
            cases hs2 : locate_set OSSL_PROV_PARAM_VERSION OPENSSL_VERSION_STR ps1 with
            | mk b2 ps2 =>
                cases b2 with
                | false => rfl
                | true =>
                    dsimp only
                    have hrel2 : List.Forall₂ (PresKeys [OSSL_PROV_PARAM_VERSION]) ps1 ps2 := by
                      have hq := locate_set_presKeys OSSL_PROV_PARAM_VERSION
                        OPENSSL_VERSION_STR ps1
                      rw [hs2] at hq
                      exact hq
                    obtain ⟨q, hfq, _, hqt⟩ :=
                      find_keytype_transport (presKeys_comp hrel1 hrel2) hf
                    rw [locate_set_mismatch _ _ _ _ hfq (by rw [hqt]; exact ht)]

theorem fips_get_params_type_mismatch_fails_call_witness :
    (fips_get_params psMismatch).1 = 0 :=
  fips_get_params_type_mismatch_fails_call psMismatch
    ⟨OSSL_PROV_PARAM_VERSION, by decide,
      ⟨OSSL_PROV_PARAM_VERSION, 999, none⟩, by decide, by decide⟩

/-- C7: every requested slot whose name is not one of the module's
descriptor names (name, version, buildinfo) is left untouched by
fips_get_params, and a call in which no slot matches returns success with
the request array unchanged, however many slots went unmatched. -/
theorem fips_get_params_unmatched_slots (ps : List OSSL_PARAM) :
    List.Forall₂ (fun p q => p.key ∉ knownParamKeys → q = p) ps
      (fips_get_params ps).2 ∧
    ((∀ p ∈ ps, p.key ∉ knownParamKeys) → fips_get_params ps = (1, ps)) := by
  constructor
  · unfold fips_get_params
    cases hs1 : locate_set OSSL_PROV_PARAM_NAME "OpenSSL FIPS Provider" ps with
    | mk b1 ps1 =>
        have hrel1 : List.Forall₂ (PresKeys [OSSL_PROV_PARAM_NAME]) ps ps1 := by
          have hq := locate_set_presKeys OSSL_PROV_PARAM_NAME
            "OpenSSL FIPS Provider" ps
          rw [hs1] at hq
          exact hq
        cases b1 with
        | false => exact presKeys_weaken (by simp [knownParamKeys]) hrel1
        | true =>
            dsimp only
            cases hs2 : locate_set OSSL_PROV_PARAM_VERSION OPENSSL_VERSION_STR ps1 with
            | mk b2 ps2 =>
                have hrel2 : List.Forall₂ (PresKeys [OSSL_PROV_PARAM_VERSION]) ps1 ps2 := by
                  have hq := locate_set_presKeys OSSL_PROV_PARAM_VERSION
                    OPENSSL_VERSION_STR ps1
                  rw [hs2] at hq
                  exact hq
                cases b2 with
                | false =>
                    exact presKeys_weaken (by simp [knownParamKeys])
                      (presKeys_comp hrel1 hrel2)
                | true =>
                    dsimp only
                    cases hs3 : locate_set OSSL_PROV_PARAM_BUILDINFO
                        OPENSSL_FULL_VERSION_STR ps2 with
                    | mk b3 ps3 =>
                        have hrel3 : List.Forall₂ (PresKeys [OSSL_PROV_PARAM_BUILDINFO]) ps2 ps3 := by
                          have hq := locate_set_presKeys OSSL_PROV_PARAM_BUILDINFO
                            OPENSSL_FULL_VERSION_STR ps2
                          rw [hs3] at hq
                          exact hq
                        cases b3 with
                        | false =>
                            exact presKeys_weaken (by simp [knownParamKeys])
                              (presKeys_comp (presKeys_comp hrel1 hrel2) hrel3)
                        | true =>
                            exact presKeys_weaken (by simp [knownParamKeys])
                              (presKeys_comp (presKeys_comp hrel1 hrel2) hrel3)
  · intro hnone
    have h1 : ∀ p ∈ ps, p.key ≠ OSSL_PROV_PARAM_NAME := fun p hp he =>
      hnone p hp (by rw [he]; simp [knownParamKeys])
    have h2 : ∀ p ∈ ps, p.key ≠ OSSL_PROV_PARAM_VERSION := fun p hp he =>
      hnone p hp (by rw [he]; simp [knownParamKeys])
    have h3 : ∀ p ∈ ps, p.key ≠ OSSL_PROV_PARAM_BUILDINFO := fun p hp he =>
      hnone p hp (by rw [he]; simp [knownParamKeys])
    unfold fips_get_params
    rw [locate_set_not_found _ _ _ h1]
    dsimp only
    rw [locate_set_not_found _ _ _ h2]
    dsimp only
    rw [locate_set_not_found _ _ _ h3]

theorem fips_get_params_unmatched_slots_witness :
    fips_get_params [⟨"zzz", OSSL_PARAM_UTF8_PTR, none⟩] =
      (1, [⟨"zzz", OSSL_PARAM_UTF8_PTR, none⟩]) :=
  (fips_get_params_unmatched_slots _).2 (by decide)
